import Mathlib

/-!
Shallow embedding of `src/display.py` (led-matrix-dashboard): the screen
rotation / render-scheduling loop, the F1 schedule fetch (`get_f1_data`),
the weather stub (`get_weather`), and the main `try/while/except` loop.

Modelling conventions:
* Python values flowing through `get_f1_data` are modelled by `Json`;
  a raised exception is an `Except.error` of a `PyErr` kind.
* Wall-clock instants from `time.time()` are modelled by `Int` seconds
  (the source uses float seconds; every property at issue concerns only
  ordering and threshold comparisons, which agree on integers).
* `datetime` values parsed with `strptime("%Y-%m-%d")` carry only a
  calendar date; `datetime.now()` inside the fetch is a `Date` parameter.
  Python's `datetime` comparison is lexicographic on the components, and
  a parsed race date has a midnight time component, so `race_date >
  current_date` agrees with strict lexicographic order on calendar dates.
-/

/-- Kinds of Python exception that the code under `except Exception`
can raise: network / JSON-decode failures from `requests`, missing dict
keys, wrong-type subscripting or attribute access, and `strptime` parse
failures.  All derive from `Exception` in the source, so all are caught
by `get_f1_data`'s handler. -/
inductive PyErr where
  | networkError
  | jsonError
  | keyError
  | typeError
  | attributeError
  | valueError
  deriving DecidableEq, Repr

/-- Python/JSON values as they appear in the decoded Ergast response. -/
inductive Json where
  | null
  | bool (b : Bool)
  | num (n : Int)
  | str (s : String)
  | arr (xs : List Json)
  | obj (kvs : List (String × Json))

/-- Tests whether a value is a Python `str`. -/
def Json.isStr : Json → Bool
  | .str _ => true
  | _ => false

/-- Subscripting `d[k]` on a Python dict: `KeyError` when the key is missing,
`TypeError` when the value subscripted with a string is not a dict. -/
def getItem (j : Json) (k : String) : Except PyErr Json :=
  match j with
  | .obj kvs =>
    match kvs.lookup k with
    | some v => Except.ok v
    | none => Except.error PyErr.keyError
  | _ => Except.error PyErr.typeError

/-- Using a value where a `str` is required (`.split`, `strptime` input):
raises unless it is a string. -/
def asStr (j : Json) : Except PyErr String :=
  match j with
  | .str s => Except.ok s
  | _ => Except.error PyErr.attributeError

/-- Iterating `for race in races` over the decoded `Races` value: the source only
ever receives a JSON array here; any non-array shape makes the loop body
raise, modelled as a `TypeError`. -/
def asArr (j : Json) : Except PyErr (List Json) :=
  match j with
  | .arr xs => Except.ok xs
  | _ => Except.error PyErr.typeError

/-- A calendar date as produced by `strptime(s, "%Y-%m-%d")`. -/
structure Date where
  year : Nat
  month : Nat
  day : Nat
  deriving DecidableEq, Repr

/-- Python `datetime` strict `<`: lexicographic on (year, month, day). -/
def dateLtB (a b : Date) : Bool :=
  a.year < b.year ∨
    (a.year = b.year ∧
      (a.month < b.month ∨ (a.month = b.month ∧ a.day < b.day)))

/-- Split a character list on a single separator character, as Python's
`s.split("-")` does (`"".split("-") == [""]`). -/
def splitOnDash : List Char → List (List Char)
  | [] => [[]]
  | c :: cs =>
    let r := splitOnDash cs
    if c = '-' then [] :: r
    else
      match r with
      | g :: gs => (c :: g) :: gs
      | [] => [[c]]

/-- A nonempty all-digit character group read as a number, else `none`. -/
def digitsToNat (cs : List Char) : Option Nat :=
  if cs ≠ [] ∧ cs.all Char.isDigit then
    some (cs.foldl (fun a c => a * 10 + (c.toNat - 48)) 0)
  else none

/-- Parsing with `datetime.strptime(s, "%Y-%m-%d")`: three dash-separated digit
groups, month 1–12 and day 1–31, else `ValueError`.  (strptime also
rejects a day invalid for the given month; none of the inputs the
claims exercise depend on that finer check.) -/
def parseDate (s : String) : Except PyErr Date :=
  match splitOnDash s.data with
  | [ys, ms, ds] =>
    match digitsToNat ys, digitsToNat ms, digitsToNat ds with
    | some y, some m, some d =>
      if 1 ≤ m ∧ m ≤ 12 ∧ 1 ≤ d ∧ d ≤ 31 then Except.ok ⟨y, m, d⟩
      else Except.error PyErr.valueError
    | _, _, _ => Except.error PyErr.valueError
  | _ => Except.error PyErr.valueError

/-- Month abbreviations of `strftime("%b")`. -/
def monthAbbr : Nat → String
  | 1 => "Jan" | 2 => "Feb" | 3 => "Mar" | 4 => "Apr"
  | 5 => "May" | 6 => "Jun" | 7 => "Jul" | 8 => "Aug"
  | 9 => "Sep" | 10 => "Oct" | 11 => "Nov" | 12 => "Dec"
  | _ => ""

/-- Two-digit day as in `strftime("%d")`. -/
def fmtDay (d : Nat) : String :=
  if d < 10 then "0" ++ toString d else toString d

/-- Formatting `date.strftime("%b %d")` from the success branch of `get_f1_data`. -/
def strftimeBD (d : Date) : String :=
  monthAbbr d.month ++ " " ++ fmtDay d.day

/-- The characters of the string before the first occurrence of `sep`,
i.e. Python `s.split(sep)[0]` for a nonempty `sep`. -/
def takeBeforeSeq (sep : List Char) : List Char → List Char
  | [] => []
  | c :: cs =>
    if sep.isPrefixOf (c :: cs) then []
    else c :: takeBeforeSeq sep cs

/-- Drop leading whitespace. -/
def dropLeadingWs : List Char → List Char
  | [] => []
  | c :: cs => if c.isWhitespace then dropLeadingWs cs else c :: cs

/-- Python `s.strip()`: whitespace removed from both ends. -/
def pyStrip (s : String) : String :=
  ⟨((dropLeadingWs s.data).reverse |> dropLeadingWs).reverse⟩

/-- Computes `next_race["raceName"].split("Grand Prix")[0].strip()`. -/
def shortenRaceName (s : String) : String :=
  pyStrip ⟨takeBeforeSeq "Grand Prix".data s.data⟩

example : shortenRaceName "Monaco Grand Prix" = "Monaco" := by rfl
example : parseDate "2024-06-01" = Except.ok ⟨2024, 6, 1⟩ := by rfl
example : parseDate "2024-13-01" = Except.error PyErr.valueError := by rfl
example : strftimeBD ⟨2024, 6, 1⟩ = "Jun 01" := by rfl

/-- Evaluating `datetime.strptime(race['date'], "%Y-%m-%d")` on one race entry:
the key lookup, the string requirement, and the parse. -/
def extractRaceDate (race : Json) : Except PyErr Date :=
  match getItem race "date" with
  | Except.error e => Except.error e
  | Except.ok j =>
    match asStr j with
    | Except.error e => Except.error e
    | Except.ok s => parseDate s

/-- The `for race in races: ... if race_date > current_date: next_race =
race; break` loop of `get_f1_data`: in list order, parse each race's
date until the first one strictly after `now`; any raised exception
aborts the whole loop. -/
def findNextRace (now : Date) : List Json → Except PyErr (Option Json)
  | [] => Except.ok none
  | race :: rest =>
    match extractRaceDate race with
    | Except.error e => Except.error e
    | Except.ok d =>
      if dateLtB now d then Except.ok (some race)
      else findNextRace now rest

/-- The `if next_race:` success branch of `get_f1_data` (lines 53–60):
look up and shorten the race name, re-parse and reformat the date, and
take the raw locality value, in source order.  The dict literal is
modelled as a key/value list in the source's insertion order. -/
def buildResult (nextRace : Json) :
    Except PyErr (Option (List (String × Json))) :=
  match getItem nextRace "raceName" with
  | Except.error e => Except.error e
  | Except.ok rawName =>
    match asStr rawName with
    | Except.error e => Except.error e
    | Except.ok rawNameS =>
      match getItem nextRace "date" with
      | Except.error e => Except.error e
      | Except.ok dateJson =>
        match asStr dateJson with
        | Except.error e => Except.error e
        | Except.ok dateS =>
          match parseDate dateS with
          | Except.error e => Except.error e
          | Except.ok d =>
            match getItem nextRace "Circuit" with
            | Except.error e => Except.error e
            | Except.ok circuit =>
              match getItem circuit "Location" with
              | Except.error e => Except.error e
              | Except.ok location =>
                match getItem location "locality" with
                | Except.error e => Except.error e
                | Except.ok locality =>
                  Except.ok (some
                    [("race_name", Json.str (shortenRaceName rawNameS)),
                     ("date", Json.str (strftimeBD d)),
                     ("location", locality)])

/-- The body of `get_f1_data`'s `try:` block.  The argument `resp`
models the outcome of `requests.get(schedule_url)` followed by
`.json()`: `Except.error` when the network call or the JSON decode
raises, `Except.ok` with the decoded document otherwise.  `now` models
`datetime.datetime.now()`. -/
def getF1Body (resp : Except PyErr Json) (now : Date) :
    Except PyErr (Option (List (String × Json))) :=
  match resp with
  | Except.error e => Except.error e
  | Except.ok scheduleData =>
    match getItem scheduleData "MRData" with
    | Except.error e => Except.error e
    | Except.ok mrData =>
      match getItem mrData "RaceTable" with
      | Except.error e => Except.error e
      | Except.ok raceTable =>
        match getItem raceTable "Races" with
        | Except.error e => Except.error e
        | Except.ok racesJson =>
          match asArr racesJson with
          | Except.error e => Except.error e
          | Except.ok races =>
            match findNextRace now races with
            | Except.error e => Except.error e
            | Except.ok none => Except.ok none
            | Except.ok (some nextRace) => buildResult nextRace

/-- Function `get_f1_data`: the `try:` body with `except Exception: return None`
wrapped around it.  Total: every modelled exception becomes the `none`
fallback. -/
def get_f1_data (resp : Except PyErr Json) (now : Date) :
    Option (List (String × Json)) :=
  match getF1Body resp now with
  | Except.ok v => v
  | Except.error _ => none

/-- Function `get_weather()`: the stub returns a fixed sentinel string. -/
def get_weather : String := "Weather feature needs API key"

/-- The refresh-due test inlined in the main loop:
`current_time - last_update > 600`, with the literal `600` exposed as
the `interval` parameter. -/
def refreshDue (now lastUpdate interval : Int) : Bool :=
  decide (now - lastUpdate > interval)

/-- The module-level mutable state the main loop reads and writes:
`weather_str`, `f1_data`, `last_update`. -/
structure LoopState where
  weather_str : String
  f1_data : Option (List (String × Json))
  last_update : Int

/-- Outcome of one pass through the `while True:` body.  `refreshed`
records whether the `current_time - last_update > 600` branch ran.
`renderDelay` is the elapsed time between the start of the iteration
and the `draw_screen()` call, given that the synchronous
`requests.get` inside `get_f1_data` takes `fetchLatency` seconds and
every other step is instantaneous: statements run sequentially, so a
refresh iteration reaches the render only after the fetch returns. -/
structure IterResult where
  state : LoopState
  refreshed : Bool
  renderDelay : Nat

/-- One iteration of the main loop (lines 155–164): conditionally
refresh `weather_str`, `f1_data` and `last_update`, then render. -/
def loopIteration (st : LoopState) (now : Int) (resp : Except PyErr Json)
    (today : Date) (fetchLatency : Nat) : IterResult :=
  if refreshDue now st.last_update 600 then
    { state := { weather_str := get_weather,
                 f1_data := get_f1_data resp today,
                 last_update := now },
      refreshed := true,
      renderDelay := fetchLatency }
  else
    { state := st, refreshed := false, renderDelay := 0 }

/-- The three rotating screens drawn by `draw_screen`. -/
inductive ScreenId where
  | Clock
  | Weather
  | Race
  deriving DecidableEq, Repr

/-- The screen-selection logic of `draw_screen`:
`seconds = int(time.time()) % 30`, then `< 10` → time screen, `< 20` →
weather screen, else F1 screen.  `now` is the (nonnegative) truncated
`time.time()` value. -/
def activeScreenAt (now : Nat) : ScreenId :=
  let seconds := now % 30
  if seconds < 10 then ScreenId.Clock
  else if seconds < 20 then ScreenId.Weather
  else ScreenId.Race

/-- Observable events of the main loop, for the shutdown trace model. -/
inductive Ev where
  | fetchWeather
  | fetchF1
  | logUpdate
  | render
  | sleep
  | clear
  deriving DecidableEq, Repr

/-- The events of one full pass through the `while True:` body with
refresh-due flag `due`. -/
def bodyEvents (due : Bool) : List Ev :=
  (if due then [Ev.fetchWeather, Ev.fetchF1, Ev.logUpdate] else []) ++
    [Ev.render, Ev.sleep]

/-- The event trace of a run ended by CTRL-C: `dues` lists the
refresh-due flags of the iterations the loop completed; the
`KeyboardInterrupt` arrives during one further iteration (flag
`lastDue`) after `k` of its events have completed, aborting the rest of
the `try:` body; control transfers to the `except KeyboardInterrupt`
handler, which runs `matrix.Clear()` once and falls off the end of the
program.  (The `print` before the loop emits no event of interest.) -/
def runInterrupted (dues : List Bool) (lastDue : Bool) (k : Nat) :
    List Ev :=
  (dues.map bodyEvents).flatten ++ (bodyEvents lastDue).take k ++ [Ev.clear]

/-- Boolean test for `Except.ok`. -/
def exceptOk {α : Type} (x : Except PyErr α) : Bool :=
  match x with
  | Except.ok _ => true
  | Except.error _ => false

/-- The date of a race entry when its extraction succeeds, with a dummy
default on the entries `extractRaceDate` rejects. -/
def extractRaceDateD (race : Json) : Date :=
  match extractRaceDate race with
  | Except.ok d => d
  | Except.error _ => ⟨0, 0, 0⟩

/-- A race entry of the Ergast schedule, with the fields `get_f1_data`
reads (the real payload also carries fields the code never looks at;
key lookup ignores them). -/
def mkRace (name dateS : String) (locality : Json) : Json :=
  Json.obj [("raceName", Json.str name), ("date", Json.str dateS),
    ("Circuit", Json.obj [("Location", Json.obj [("locality", locality)])])]

/-- An Ergast schedule document wrapping a race list. -/
def mkSchedule (races : List Json) : Json :=
  Json.obj [("MRData",
    Json.obj [("RaceTable", Json.obj [("Races", Json.arr races)])])]

/-- The three-event schedule from the spec's normalization example. -/
def races3 : List Json :=
  [mkRace "A Grand Prix" "2024-01-01" (Json.str "a"),
   mkRace "B Grand Prix" "2024-06-01" (Json.str "b"),
   mkRace "C Grand Prix" "2024-12-01" (Json.str "c")]

/-- A previously fetched, well-formed snapshot value. -/
def prevDict : List (String × Json) :=
  [("race_name", Json.str "Monaco"), ("date", Json.str "May 25"),
   ("location", Json.str "Monte-Carlo")]

example : get_f1_data (Except.ok (mkSchedule races3)) ⟨2024, 5, 1⟩ =
    some [("race_name", Json.str "B"), ("date", Json.str "Jun 01"),
          ("location", Json.str "b")] := by rfl
example : get_f1_data (Except.ok (mkSchedule races3)) ⟨2025, 1, 1⟩ =
    none := by rfl
example : get_f1_data (Except.error PyErr.networkError) ⟨2024, 5, 1⟩ =
    none := by rfl

/-! ## Theorems for the claims -/

/-- C5: screen selection is a deterministic function of
`int(time.time()) % 30` alone: any two instants with the same
second-of-period select the same screen, so a process restarted at the
same wall time reproduces the same screen (there is no persisted
rotation cursor in `draw_screen`). -/
theorem c5_rotation_deterministic (n1 n2 : Nat) (h : n1 % 30 = n2 % 30) :
    activeScreenAt n1 = activeScreenAt n2 := by
  unfold activeScreenAt
  rw [h]

/-- Witness for C5 at `n1 = 7`, `n2 = 37`. -/
theorem c5_rotation_deterministic_witness :
    7 % 30 = 37 % 30 ∧ activeScreenAt 7 = activeScreenAt 37 :=
  ⟨by decide, c5_rotation_deterministic 7 37 (by decide)⟩

/-- C6: with the 30-second period and 10-second slices of
`draw_screen`, second-of-period 0–9 selects the clock screen, 10–19
the weather screen, and 20–29 the F1 race screen; `activeScreenAt`
being a total function, exactly one screen is selected at every
instant. -/
theorem c6_slice_mapping (n : Nat) :
    (n % 30 ≤ 9 → activeScreenAt n = ScreenId.Clock) ∧
    (10 ≤ n % 30 → n % 30 ≤ 19 → activeScreenAt n = ScreenId.Weather) ∧
    (20 ≤ n % 30 → activeScreenAt n = ScreenId.Race) := by
  have h30 : n % 30 < 30 := Nat.mod_lt _ (by norm_num)
  refine ⟨fun h => ?_, fun h1 h2 => ?_, fun h => ?_⟩ <;>
    simp only [activeScreenAt] <;> split_ifs <;> first | rfl | omega

/-- Witness for C6 at seconds-of-period 5, 15 and 23. -/
theorem c6_slice_mapping_witness :
    activeScreenAt 5 = ScreenId.Clock ∧
    activeScreenAt 45 = ScreenId.Weather ∧
    activeScreenAt 83 = ScreenId.Race :=
  ⟨(c6_slice_mapping 5).1 (by decide),
   (c6_slice_mapping 45).2.1 (by decide) (by decide),
   (c6_slice_mapping 83).2.2 (by decide)⟩

/-- C3 counterexample: at `now = 600`, `lastAttempt = 0`,
`interval = 600` the claim's predicate holds (`now - lastAttempt ≥
interval`, and `lastAttempt` is even the epoch), yet the code's strict
test `current_time - last_update > 600` is false and the loop does not
refresh. -/
theorem c3_boundary_counterexample :
    ((600 : Int) - 0 ≥ 600 ∧ (0 : Int) = 0) ∧
    refreshDue 600 0 600 = false ∧
    (loopIteration ⟨get_weather, none, 0⟩ 600
      (Except.error PyErr.networkError) ⟨2024, 5, 1⟩ 0).refreshed =
      false := by
  refine ⟨⟨by norm_num, rfl⟩, by rfl, by rfl⟩

/-- C3 amended: the loop refreshes exactly when
`now - last_update > 600` holds strictly; at exactly
`now - last_update = 600` no refresh is due, and `last_update = 0` is
given no special treatment beyond the same comparison. -/
theorem c3_refresh_due_strict (st : LoopState) (now : Int)
    (resp : Except PyErr Json) (today : Date) (L : Nat) :
    (loopIteration st now resp today L).refreshed = true ↔
      now - st.last_update > 600 := by
  unfold loopIteration
  split_ifs with h <;> simp [refreshDue] at h ⊢ <;> omega

/-- C4 counterexample: the spec's clock-skew example
`isRefreshDue(now=1000, lastAttempt=1001, interval=600)` should be
true, but the code's check is false and the loop does not refresh. -/
theorem c4_skew_counterexample :
    (1000 : Int) < 1001 ∧
    refreshDue 1000 1001 600 = false ∧
    (loopIteration ⟨get_weather, none, 1001⟩ 1000
      (Except.error PyErr.networkError) ⟨2024, 5, 1⟩ 0).refreshed =
      false := by
  refine ⟨by norm_num, by rfl, by rfl⟩

/-- C4 amended: under backward clock skew (`now < last_update`) the
check `current_time - last_update > 600` is false, so the refresh is
suppressed — it is not treated as due immediately — until the clock
advances past `last_update + 600`. -/
theorem c4_skew_suppresses (st : LoopState) (now : Int)
    (resp : Except PyErr Json) (today : Date) (L : Nat)
    (h : now < st.last_update) :
    (loopIteration st now resp today L).refreshed = false := by
  unfold loopIteration
  rw [if_neg]
  simp [refreshDue]
  omega

/-- Witness for C4 (amended) at the spec's skew example. -/
theorem c4_skew_suppresses_witness :
    (1000 : Int) < 1001 ∧
    (loopIteration ⟨get_weather, none, 1001⟩ 1000
      (Except.ok Json.null) ⟨2024, 5, 1⟩ 3).refreshed = false :=
  ⟨by norm_num,
   c4_skew_suppresses ⟨get_weather, none, 1001⟩ 1000
     (Except.ok Json.null) ⟨2024, 5, 1⟩ 3 (by norm_num)⟩

/-- C1 counterexample: with a previously fetched snapshot in place and
a refresh due, a failed fetch does not leave the snapshot unchanged —
the loop's `f1_data = get_f1_data()` overwrites it with the `None`
fallback. -/
theorem c1_failure_overwrites_counterexample :
    (loopIteration ⟨get_weather, some prevDict, 0⟩ 1000
        (Except.error PyErr.networkError) ⟨2024, 5, 1⟩ 0).state.f1_data =
      none ∧
    some prevDict ≠ (none : Option (List (String × Json))) := by
  exact ⟨by rfl, by simp⟩

/-- C1 amended: when a refresh runs, the loop unconditionally
overwrites `f1_data` with the fetch result and sets `last_update` to
`now`; in particular a failed fetch replaces the previous snapshot
with the `None` fallback (rendered as "No races") rather than
retaining it, while a successful fetch stores the new data. -/
theorem c1_refresh_overwrites (st : LoopState) (now : Int)
    (resp : Except PyErr Json) (today : Date) (L : Nat)
    (h : now - st.last_update > 600) :
    (loopIteration st now resp today L).state.f1_data =
        get_f1_data resp today ∧
    (loopIteration st now resp today L).state.last_update = now ∧
    (∀ e, getF1Body resp today = Except.error e →
      (loopIteration st now resp today L).state.f1_data = none) := by
  unfold loopIteration
  rw [if_pos (by simp [refreshDue]; omega)]
  refine ⟨rfl, rfl, fun e he => ?_⟩
  simp [get_f1_data, he]

/-- Witness for C1 (amended): a due refresh with a failing fetch
overwrites the stored snapshot with `none` and stamps `last_update`. -/
theorem c1_refresh_overwrites_witness :
    (1000 : Int) - 0 > 600 ∧
    (loopIteration ⟨get_weather, some prevDict, 0⟩ 1000
        (Except.error PyErr.networkError) ⟨2024, 5, 1⟩ 0).state.f1_data =
      get_f1_data (Except.error PyErr.networkError) ⟨2024, 5, 1⟩ ∧
    (loopIteration ⟨get_weather, some prevDict, 0⟩ 1000
        (Except.error PyErr.networkError) ⟨2024, 5, 1⟩ 0).state.last_update =
      1000 :=
  ⟨by norm_num,
   (c1_refresh_overwrites ⟨get_weather, some prevDict, 0⟩ 1000
     (Except.error PyErr.networkError) ⟨2024, 5, 1⟩ 0 (by norm_num)).1,
   (c1_refresh_overwrites ⟨get_weather, some prevDict, 0⟩ 1000
     (Except.error PyErr.networkError) ⟨2024, 5, 1⟩ 0 (by norm_num)).2.1⟩

/-- C2 counterexample: there is no constant bound, independent of the
fetch latency, on the time between the start of a refresh-due loop
iteration and its `draw_screen()` call — the synchronous inline
`requests.get` delays the render by its full latency. -/
theorem c2_no_latency_bound_counterexample :
    ¬ ∃ B : Nat, ∀ L : Nat,
      (loopIteration ⟨get_weather, none, 0⟩ 1000
        (Except.ok Json.null) ⟨2024, 5, 1⟩ L).renderDelay ≤ B := by
  rintro ⟨B, hB⟩
  have h := hB (B + 1)
  unfold loopIteration at h
  rw [if_pos (by rfl)] at h
  simp at h

/-- C2 amended: in an iteration with no refresh due the render starts
with zero delay, but in a refresh-due iteration the render is delayed
by the full latency of the inline synchronous fetch — render latency
is not bounded independently of fetch latency. -/
theorem c2_render_delayed_by_fetch (st : LoopState) (now : Int)
    (resp : Except PyErr Json) (today : Date) (L : Nat) :
    ((loopIteration st now resp today L).refreshed = true →
      (loopIteration st now resp today L).renderDelay = L) ∧
    ((loopIteration st now resp today L).refreshed = false →
      (loopIteration st now resp today L).renderDelay = 0) := by
  unfold loopIteration
  split_ifs <;> simp

/-- Witness for C2 (amended): a due refresh whose fetch takes 5
seconds delays the render by 5 seconds. -/
theorem c2_render_delayed_by_fetch_witness :
    (loopIteration ⟨get_weather, none, 0⟩ 1000
        (Except.ok Json.null) ⟨2024, 5, 1⟩ 5).refreshed = true ∧
    (loopIteration ⟨get_weather, none, 0⟩ 1000
        (Except.ok Json.null) ⟨2024, 5, 1⟩ 5).renderDelay = 5 :=
  ⟨by rfl,
   (c2_render_delayed_by_fetch ⟨get_weather, none, 0⟩ 1000
     (Except.ok Json.null) ⟨2024, 5, 1⟩ 5).1 (by rfl)⟩

/-- C8: however many iterations the loop completes and wherever inside
the `try:` body the CTRL-C interrupt lands (`k` events into a final
iteration, with any pattern of refresh-due flags), the resulting trace
contains exactly one `matrix.Clear()` event: the
`except KeyboardInterrupt` handler runs it once and the program
exits. -/
theorem c8_clear_exactly_once (dues : List Bool) (lastDue : Bool)
    (k : Nat) :
    (runInterrupted dues lastDue k).count Ev.clear = 1 := by
  unfold runInterrupted
  rw [List.count_append, List.count_append]
  have hbody : ∀ d : Bool, (bodyEvents d).count Ev.clear = 0 := by
    decide
  have h1 : ((dues.map bodyEvents).flatten).count Ev.clear = 0 := by
    induction dues with
    | nil => rfl
    | cons d ds ih =>
      simp only [List.map_cons, List.flatten_cons, List.count_append,
        ih, hbody d]
  have h2 : (((bodyEvents lastDue).take k).count Ev.clear) = 0 := by
    have hsub : ((bodyEvents lastDue).take k).count Ev.clear ≤
        (bodyEvents lastDue).count Ev.clear :=
      (List.take_sublist _ _).count_le _
    have := hbody lastDue
    omega
  rw [h1, h2]
  rfl

/-- C9: every modelled exception raised inside `get_f1_data`'s `try:`
body — network failure, JSON decode failure, missing key, wrong-shape
value, date parse failure — is caught by its `except Exception`
handler, which returns the `None` fallback; no such error escapes into
the render loop. -/
theorem c9_fetch_errors_caught (resp : Except PyErr Json) (today : Date)
    (e : PyErr) (h : getF1Body resp today = Except.error e) :
    get_f1_data resp today = none := by
  simp [get_f1_data, h]

/-- Witness for C9: a network failure makes the `try:` body raise, and
`get_f1_data` returns the fallback. -/
theorem c9_fetch_errors_caught_witness :
    getF1Body (Except.error PyErr.networkError) ⟨2024, 5, 1⟩ =
      Except.error PyErr.networkError ∧
    get_f1_data (Except.error PyErr.networkError) ⟨2024, 5, 1⟩ = none :=
  ⟨by rfl,
   c9_fetch_errors_caught (Except.error PyErr.networkError) ⟨2024, 5, 1⟩
     PyErr.networkError (by rfl)⟩

/-- C7: on a race list whose entries all carry parseable `date`
strings, the selection loop of `get_f1_data` returns exactly the first
race in list order whose date is strictly after `now`
(`List.find?` with the strict comparison), and in particular returns
the explicit no-upcoming-race value `Except.ok none` — not an error —
when no race qualifies. -/
theorem c7_first_future_event (now : Date) (races : List Json)
    (h : ∀ r ∈ races, exceptOk (extractRaceDate r) = true) :
    findNextRace now races =
      Except.ok (races.find? fun r => dateLtB now (extractRaceDateD r)) := by
  induction races with
  | nil => rfl
  | cons race rest ih =>
    have hr := h race (List.mem_cons_self _ _)
    obtain ⟨d, hd⟩ : ∃ d, extractRaceDate race = Except.ok d := by
      cases hx : extractRaceDate race with
      | ok d => exact ⟨d, rfl⟩
      | error e => rw [hx] at hr; simp [exceptOk] at hr
    have hD : extractRaceDateD race = d := by
      simp [extractRaceDateD, hd]
    have hrest : ∀ r ∈ rest, exceptOk (extractRaceDate r) = true :=
      fun r hm => h r (List.mem_cons_of_mem _ hm)
    by_cases hlt : dateLtB now d = true
    · rw [List.find?_cons_of_pos _ (by rw [hD]; exact hlt)]
      simp [findNextRace, hd, hlt]
    · rw [List.find?_cons_of_neg _ (by rw [hD]; simpa using hlt)]
      rw [← ih hrest]
      simp [findNextRace, hd, hlt]

/-- Witness for C7 on the spec's example schedule: dates 2024-01-01,
2024-06-01, 2024-12-01; at now = 2024-05-01 the 2024-06-01 race is
selected, and after all dates the result is `Except.ok none`. -/
theorem c7_first_future_event_witness :
    (∀ r ∈ races3, exceptOk (extractRaceDate r) = true) ∧
    findNextRace ⟨2024, 5, 1⟩ races3 =
      Except.ok (some (mkRace "B Grand Prix" "2024-06-01" (Json.str "b"))) ∧
    findNextRace ⟨2025, 1, 1⟩ races3 = Except.ok none :=
  ⟨by decide,
   by rw [c7_first_future_event ⟨2024, 5, 1⟩ races3 (by decide)]; rfl,
   by rw [c7_first_future_event ⟨2025, 1, 1⟩ races3 (by decide)]; rfl⟩

/-- The success branch of `get_f1_data` always builds the three-entry
dict literal of lines 56–60, in insertion order. -/
theorem buildResult_shape (nr : Json) (r : List (String × Json))
    (h : buildResult nr = Except.ok (some r)) :
    ∃ name dateS loc, r =
      [("race_name", Json.str name), ("date", Json.str dateS),
       ("location", loc)] := by
  unfold buildResult at h
  repeat' split at h
  all_goals first
    | exact Except.noConfusion h
    | (injection h with h1; injection h1 with h2; exact ⟨_, _, _, h2.symm⟩)

/-- A successful non-`none` result of the `try:` body is the
three-entry dict literal. -/
theorem getF1Body_shape (resp : Except PyErr Json) (today : Date)
    (r : List (String × Json))
    (h : getF1Body resp today = Except.ok (some r)) :
    ∃ name dateS loc, r =
      [("race_name", Json.str name), ("date", Json.str dateS),
       ("location", loc)] := by
  unfold getF1Body at h
  repeat' split at h
  all_goals first
    | exact Except.noConfusion h
    | (injection h with h1; exact Option.noConfusion h1)
    | exact buildResult_shape _ _ h

/-- C10 amended: every non-`None` result of `get_f1_data` is a dict
with exactly the keys `race_name`, `date`, `location` in that order,
where `race_name` and `date` are strings; the `location` value is the
raw JSON `locality` value taken from the payload, which the code never
checks to be a string. -/
theorem c10_result_shape (resp : Except PyErr Json) (today : Date)
    (r : List (String × Json)) (h : get_f1_data resp today = some r) :
    r.map Prod.fst = ["race_name", "date", "location"] ∧
    (∃ s, r.lookup "race_name" = some (Json.str s)) ∧
    (∃ s, r.lookup "date" = some (Json.str s)) := by
  unfold get_f1_data at h
  cases hb : getF1Body resp today with
  | error e =>
    rw [hb] at h
    exact Option.noConfusion h
  | ok v =>
    rw [hb] at h
    have hv : v = some r := h
    rw [hv] at hb
    obtain ⟨name, dateS, loc, hr⟩ := getF1Body_shape _ _ _ hb
    subst hr
    exact ⟨by rfl, ⟨name, by rfl⟩, ⟨dateS, by rfl⟩⟩

/-- Witness for C10 (amended) on a well-formed schedule. -/
theorem c10_result_shape_witness :
    get_f1_data (Except.ok (mkSchedule races3)) ⟨2024, 5, 1⟩ =
      some [("race_name", Json.str "B"), ("date", Json.str "Jun 01"),
            ("location", Json.str "b")] ∧
    ([("race_name", Json.str "B"), ("date", Json.str "Jun 01"),
      ("location", Json.str "b")] : List (String × Json)).map Prod.fst =
      ["race_name", "date", "location"] :=
  ⟨by rfl,
   (c10_result_shape (Except.ok (mkSchedule races3)) ⟨2024, 5, 1⟩ _
     (by rfl)).1⟩

/-- A schedule whose next race carries a numeric `locality`. -/
def respLocNum : Except PyErr Json :=
  Except.ok (mkSchedule [mkRace "X Grand Prix" "2099-01-01" (Json.num 42)])

/-- C10 counterexample: `get_f1_data` can return a dict whose
`location` value is not a string — the raw numeric `locality` of the
payload flows through unchecked. -/
theorem c10_nonstring_location_counterexample :
    ((get_f1_data respLocNum ⟨2024, 5, 1⟩).getD []).lookup "location" =
      some (Json.num 42) ∧
    Json.isStr (Json.num 42) = false ∧
    (get_f1_data respLocNum ⟨2024, 5, 1⟩).isSome = true := by
  exact ⟨by rfl, by rfl, by rfl⟩
